import Mathlib

/-!
Shallow embedding of the image-transformation client of the virtual try-on
repository (src/services/geminiService.ts and its near-duplicate
environment-credential variant).  The pure request/response marshalling
logic is transcribed into executable Lean definitions; theorems below check
the natural-language specification's claims against them.
-/

namespace Gemini

/-- JavaScript truthiness of an optional string: `undefined` and `""` are falsy. -/
def jsTruthy : Option String → Bool
  | some s => if s = "" then false else true
  | none => false

/-- JavaScript template-literal rendering of a possibly-undefined string:
`undefined` interpolates as the text "undefined". -/
def undefStr : Option String → String
  | some s => s
  | none => "undefined"

/-- JavaScript line terminators (not matched by `.` in a regex without the `s` flag). -/
def jsLineTerminator (c : Char) : Bool :=
  c.toNat = 0xa || c.toNat = 0xd || c.toNat = 0x2028 || c.toNat = 0x2029

/-- The JavaScript `String.prototype.trim` whitespace set (WhiteSpace ∪ LineTerminator). -/
def jsWhitespace (c : Char) : Bool :=
  let n := c.toNat
  n = 0x9 || n = 0xa || n = 0xb || n = 0xc || n = 0xd || n = 0x20 || n = 0xa0
    || n = 0x1680 || (0x2000 ≤ n && n ≤ 0x200a) || n = 0x2028 || n = 0x2029
    || n = 0x202f || n = 0x205f || n = 0x3000 || n = 0xfeff

/-- JavaScript `s.trim()`: drop `jsWhitespace` characters from both ends. -/
def jsTrim (s : String) : String :=
  ⟨((s.data.dropWhile jsWhitespace).reverse.dropWhile jsWhitespace).reverse⟩

/-- JavaScript `s.split(',')` on a character list: the comma-separated segments,
always at least one (the empty string splits to `[""]`). -/
def jsSplitComma : List Char → List (List Char)
  | [] => [[]]
  | c :: cs =>
    if c = ',' then [] :: jsSplitComma cs
    else
      match jsSplitComma cs with
      | [] => [[c]]
      | seg :: rest => (c :: seg) :: rest

/-- The lazy capture `(.*?);` of the regex `/:(.*?);/`: the characters up to the
first `;`, failing if a line terminator intervenes (`.` does not match those)
or if no `;` follows. -/
def mimeCapture : List Char → Option (List Char)
  | [] => none
  | c :: cs =>
    if c = ';' then some []
    else if jsLineTerminator c then none
    else
      match mimeCapture cs with
      | some m => some (c :: m)
      | none => none

/-- Capture group 1 of `header.match(/:(.*?);/)`: leftmost match wins, i.e. the
scan restarts after a `:` whose capture attempt fails. -/
def mimeRegexMatch : List Char → Option (List Char)
  | [] => none
  | c :: cs =>
    if c = ':' then
      match mimeCapture cs with
      | some m => some m
      | none => mimeRegexMatch cs
    else mimeRegexMatch cs

/-- The `{ mimeType, data }` record produced by `dataUrlToParts`. -/
structure MimeData where
  mimeType : String
  data : String
deriving DecidableEq

/-- The two throw sites of `dataUrlToParts` (both FormatError conditions in the
spec's terms): "Invalid data URL" and "Could not parse MIME type from data URL". -/
inductive ParseError
  | invalidDataUrl
  | noMimeType
deriving DecidableEq

/-- The message text of each `dataUrlToParts` throw site. -/
def parseErrorMessage : ParseError → String
  | .invalidDataUrl => "Invalid data URL"
  | .noMimeType => "Could not parse MIME type from data URL"

/-- `dataUrlToParts` of src/services/geminiService.ts on a character list:
split on `,`; fewer than two segments throws; otherwise run `/:(.*?);/` on the
first segment and require a non-empty capture; the payload is the second segment. -/
def dataUrlToPartsL (l : List Char) : Except ParseError MimeData :=
  match jsSplitComma l with
  | a :: b :: _ =>
    match mimeRegexMatch a with
    | some m => if m = [] then .error .noMimeType else .ok ⟨⟨m⟩, ⟨b⟩⟩
    | none => .error .noMimeType
  | _ => .error .invalidDataUrl

/-- `dataUrlToParts` on a Lean string. -/
def dataUrlToParts (s : String) : Except ParseError MimeData :=
  dataUrlToPartsL s.data

/-- Whether a non-empty media type is located in a header segment by the regex
(the combined `!mimeMatch || !mimeMatch[1]` test of the source). -/
def mimeLocated (h : List Char) : Option (List Char) :=
  match mimeRegexMatch h with
  | some m => if m = [] then none else some m
  | none => none

/-- Whether a parse result is a failure. -/
def isErr : Except ParseError MimeData → Bool
  | .error _ => true
  | .ok _ => false

/-- The `inlineData` payload of a response part; both fields are optional in the
wire schema. -/
structure InlineData where
  mimeType : Option String
  data : Option String
deriving DecidableEq

/-- A response part; the decode logic only inspects `inlineData`. -/
structure Part where
  inlineData : Option InlineData
deriving DecidableEq

/-- A candidate's `content` with its optional part list. -/
structure Content where
  parts : Option (List Part)
deriving DecidableEq

/-- A response candidate: optional content and optional `finishReason`. -/
structure Candidate where
  content : Option Content
  finishReason : Option String
deriving DecidableEq

/-- Top-level `promptFeedback` with optional block reason and message. -/
structure PromptFeedback where
  blockReason : Option String
  blockReasonMessage : Option String
deriving DecidableEq

/-- The fields of `GenerateContentResponse` read by `handleApiResponse`
(`text` is the SDK's aggregated text accessor, modelled as a field). -/
structure GenerateContentResponse where
  promptFeedback : Option PromptFeedback
  candidates : Option (List Candidate)
  text : Option String
deriving DecidableEq

/-- The three throw sites of `handleApiResponse`, carrying exactly the data
interpolated into each message template. -/
inductive ApiError
  | blocked (reason : String) (message : String)
  | interrupted (finishReason : String)
  | noImage (textFeedback : Option String)
deriving DecidableEq

/-- The exact message text thrown at each `handleApiResponse` throw site. -/
def apiErrorMessage : ApiError → String
  | .blocked reason msg =>
      "A solicitação foi bloqueada. Motivo: " ++ reason ++ ". " ++ msg
  | .interrupted fr =>
      "A geração de imagem parou inesperadamente. Motivo: " ++ fr
        ++ ". Isso geralmente está relacionado às configurações de segurança."
  | .noImage (some t) =>
      "O modelo de IA não retornou uma imagem. O modelo respondeu com o texto: \"" ++ t ++ "\""
  | .noImage none =>
      "O modelo de IA não retornou uma imagem. Isso pode acontecer devido a filtros de segurança ou se a solicitação for muito complexa. Por favor, tente uma imagem diferente."

/-- The image reference string returned for an image part:
`` `data:${mimeType};base64,${data}` ``. -/
def mkImageRef (d : InlineData) : String :=
  "data:" ++ undefStr d.mimeType ++ ";base64," ++ undefStr d.data

/-- `candidate.content?.parts?.find(part => part.inlineData)` followed by the
`imagePart?.inlineData` re-check: the inline data this candidate contributes. -/
def candidateImage (c : Candidate) : Option InlineData :=
  match c.content with
  | some ct =>
    match ct.parts with
    | some ps =>
      match ps.find? (fun p => p.inlineData.isSome) with
      | some p => p.inlineData
      | none => none
    | none => none
  | none => none

/-- The `for (const candidate of response.candidates ?? [])` loop: the inline
data of the first candidate that has an image part. -/
def firstImage : List Candidate → Option InlineData
  | [] => none
  | c :: cs =>
    match candidateImage c with
    | some d => some d
    | none => firstImage cs

/-- The final fallback of `handleApiResponse`: inspect `response.text`, throw
NoImage with the trimmed text when truthy, generic NoImage otherwise. -/
def noImageResult (r : GenerateContentResponse) : Except ApiError String :=
  match r.text with
  | some t =>
    if jsTrim t = "" then .error (.noImage none)
    else .error (.noImage (some (jsTrim t)))
  | none => .error (.noImage none)

/-- The `finishReason` check of `handleApiResponse`:
`response.candidates?.[0]?.finishReason` truthy and not `"STOP"` throws
Interrupted; otherwise fall through to the text fallback. -/
def afterScan (r : GenerateContentResponse) : Except ApiError String :=
  match (r.candidates.getD []).head? with
  | some c0 =>
    match c0.finishReason with
    | some fr =>
      if fr = "" then noImageResult r
      else if fr = "STOP" then noImageResult r
      else .error (.interrupted fr)
    | none => noImageResult r
  | none => noImageResult r

/-- The body of `handleApiResponse` after the block-reason guard: scan for the
first image part, else fall through to the finish-reason and text checks. -/
def handleNoBlock (r : GenerateContentResponse) : Except ApiError String :=
  match firstImage (r.candidates.getD []) with
  | some d => .ok (mkImageRef d)
  | none => afterScan r

/-- The optional chain `response.promptFeedback?.blockReason`. -/
def blockReasonOf (r : GenerateContentResponse) : Option String :=
  match r.promptFeedback with
  | some pf => pf.blockReason
  | none => none

/-- `handleApiResponse` of src/services/geminiService.ts: block-reason guard,
then image scan, then finish-reason check, then text fallback. -/
def handleApiResponse (r : GenerateContentResponse) : Except ApiError String :=
  match r.promptFeedback with
  | some pf =>
    if jsTruthy pf.blockReason then
      .error (.blocked (pf.blockReason.getD "") (pf.blockReasonMessage.getD ""))
    else handleNoBlock r
  | none => handleNoBlock r

/-- `dataUrlToParts` as duplicated in the environment-credential variant
(src/unnamed/part_000); its source text is identical to the other copy. -/
def dataUrlToPartsEnvL (l : List Char) : Except ParseError MimeData :=
  match jsSplitComma l with
  | a :: b :: _ =>
    match mimeRegexMatch a with
    | some m => if m = [] then .error .noMimeType else .ok ⟨⟨m⟩, ⟨b⟩⟩
    | none => .error .noMimeType
  | _ => .error .invalidDataUrl

/-- `dataUrlToParts` of the environment-credential variant on a Lean string. -/
def dataUrlToPartsEnv (s : String) : Except ParseError MimeData :=
  dataUrlToPartsEnvL s.data

/-- `candidateImage` as duplicated in the environment-credential variant. -/
def candidateImageEnv (c : Candidate) : Option InlineData :=
  match c.content with
  | some ct =>
    match ct.parts with
    | some ps =>
      match ps.find? (fun p => p.inlineData.isSome) with
      | some p => p.inlineData
      | none => none
    | none => none
  | none => none

/-- The candidate loop as duplicated in the environment-credential variant. -/
def firstImageEnv : List Candidate → Option InlineData
  | [] => none
  | c :: cs =>
    match candidateImageEnv c with
    | some d => some d
    | none => firstImageEnv cs

/-- The text fallback as duplicated in the environment-credential variant. -/
def noImageResultEnv (r : GenerateContentResponse) : Except ApiError String :=
  match r.text with
  | some t =>
    if jsTrim t = "" then .error (.noImage none)
    else .error (.noImage (some (jsTrim t)))
  | none => .error (.noImage none)

/-- The finish-reason check as duplicated in the environment-credential variant. -/
def afterScanEnv (r : GenerateContentResponse) : Except ApiError String :=
  match (r.candidates.getD []).head? with
  | some c0 =>
    match c0.finishReason with
    | some fr =>
      if fr = "" then noImageResultEnv r
      else if fr = "STOP" then noImageResultEnv r
      else .error (.interrupted fr)
    | none => noImageResultEnv r
  | none => noImageResultEnv r

/-- The post-guard body as duplicated in the environment-credential variant. -/
def handleNoBlockEnv (r : GenerateContentResponse) : Except ApiError String :=
  match firstImageEnv (r.candidates.getD []) with
  | some d => .ok (mkImageRef d)
  | none => afterScanEnv r

/-- `handleApiResponse` of src/unnamed/part_000 (environment-credential
variant); its source text is identical to the other copy. -/
def handleApiResponseEnv (r : GenerateContentResponse) : Except ApiError String :=
  match r.promptFeedback with
  | some pf =>
    if jsTruthy pf.blockReason then
      .error (.blocked (pf.blockReason.getD "") (pf.blockReasonMessage.getD ""))
    else handleNoBlockEnv r
  | none => handleNoBlockEnv r

/-- A part of an outbound request: an embedded image (`inlineData`) or a text
instruction. -/
inductive ReqPart
  | image (md : MimeData)
  | text (t : String)
deriving DecidableEq

/-- The content-generation request each operation submits: the fixed model
identifier, the ordered part list, and the fixed response modalities. -/
structure OutboundRequest where
  model : String
  parts : List ReqPart
  responseModalities : List String
deriving DecidableEq

/-- Failures an operation can raise before the network call: the missing-key
configuration error of `getAiInstance`, or a propagated data-URL parse error. -/
inductive OpError
  | config
  | parse (e : ParseError)
deriving DecidableEq

/-- The configuration-error message of `getAiInstance` in the
environment-credential variant. -/
def configErrorMessage : String :=
  "A chave de API do Google Gemini não está configurada. Por favor, adicione VITE_API_KEY às suas variáveis de ambiente no Netlify e faça o redeploy."

/-- The fixed model identifier. -/
def modelName : String := "gemini-2.5-flash-image-preview"

/-- `isApiKeyConfigured` / the `if (!API_KEY)` guard: key present and non-empty. -/
def isApiKeyConfigured (apiKey : Option String) : Bool := jsTruthy apiKey

/-- `fileToPart`: the user file is modelled by the data URL the FileReader
produces for it; parse it and wrap the result as an inline-data part. -/
def fileToPart (fileDataUrl : String) : Except ParseError ReqPart :=
  (dataUrlToParts fileDataUrl).map fun md => .image md

/-- `dataUrlToPart`: parse an image-reference string and wrap it as an
inline-data part. -/
def dataUrlToPart (dataUrl : String) : Except ParseError ReqPart :=
  (dataUrlToParts dataUrl).map fun md => .image md

/-- The fixed prompt of `generateModelImage`. -/
def modelImagePrompt : String :=
  "Você é uma IA especialista em fotografia de moda. Transforme a pessoa nesta imagem em uma foto de modelo de corpo inteiro para um site de e-commerce. O fundo deve ser um estúdio neutro e limpo (cinza claro, #f0f0f0). A pessoa deve ter uma expressão de modelo neutra e profissional. Preserve a identidade da pessoa, características únicas e tipo de corpo, mas coloque-a em uma pose de modelo padrão, relaxada и em pé. A imagem final deve ser fotorrealista. Retorne APENAS a imagem final."

/-- The fixed prompt of `generateVirtualTryOnImage`. -/
def tryOnPrompt : String :=
  "Você é uma IA especialista em provador virtual. Você receberá uma \x27imagem da modelo\x27 e uma \x27imagem da peça de roupa\x27. Sua tarefa é criar uma nova imagem fotorrealista onde a pessoa da \x27imagem da modelo\x27 está vestindo a roupa da \x27imagem da peça de roupa\x27.\n\n**Regras Cruciais:**\n1.  **Substituição Completa da Roupa:** Você DEVE remover e substituir COMPLETAMENTE a peça de roupa usada pela pessoa na \x27imagem da modelo\x27 pela nova peça. Nenhuma parte da roupa original (por exemplo, golas, mangas, estampas) deve ser visível na imagem final.\n2.  **Preservar a Modelo:** O rosto, cabelo, formato do corpo e pose da pessoa da \x27imagem da modelo\x27 DEVEM permanecer inalterados.\n3.  **Preservar o Fundo:** Todo o fundo da \x27imagem da modelo\x27 DEVE ser preservado perfeitamente.\n4.  **Aplicar a Peça de Roupa:** Ajuste realisticamente a nova peça de roupa na pessoa. Ela deve se adaptar à pose com dobras, sombras e iluminação naturais consistentes com a cena original.\n5.  **Saída:** Retorne APENAS a imagem final editada. Não inclua nenhum texto."

/-- The text of the pose-variation template literal before `${poseInstruction}`. -/
def posePromptPre : String :=
  "Você é uma IA especialista em fotografia de moda. Pegue esta imagem e gere-a novamente de uma perspectiva diferente. A pessoa, a roupa e o estilo do fundo devem permanecer idênticos. A nova perspectiva deve ser: \""

/-- The text of the pose-variation template literal after `${poseInstruction}`. -/
def posePromptPost : String := "\". Retorne APENAS a imagem final."

/-- The pose-variation prompt: the caller's instruction interpolated directly
between the two fixed pieces. -/
def posePrompt (poseInstruction : String) : String :=
  posePromptPre ++ poseInstruction ++ posePromptPost

/-- `generateModelImage` up to its network call (environment-credential
variant): `getAiInstance` key guard, then `fileToPart`, then the request. -/
def generateModelImageRequest (apiKey : Option String) (userImageDataUrl : String) :
    Except OpError OutboundRequest :=
  if jsTruthy apiKey then
    match fileToPart userImageDataUrl with
    | .ok p => .ok ⟨modelName, [p, .text modelImagePrompt], ["IMAGE", "TEXT"]⟩
    | .error e => .error (.parse e)
  else .error .config

/-- `generateVirtualTryOnImage` up to its network call: key guard, then
`dataUrlToPart` on the model image, then `fileToPart` on the garment. -/
def generateVirtualTryOnImageRequest (apiKey : Option String)
    (modelImageUrl garmentFileDataUrl : String) : Except OpError OutboundRequest :=
  if jsTruthy apiKey then
    match dataUrlToPart modelImageUrl with
    | .ok mp =>
      match fileToPart garmentFileDataUrl with
      | .ok gp => .ok ⟨modelName, [mp, gp, .text tryOnPrompt], ["IMAGE", "TEXT"]⟩
      | .error e => .error (.parse e)
    | .error e => .error (.parse e)
  else .error .config

/-- `generatePoseVariation` up to its network call: key guard, then
`dataUrlToPart`, then the request with the interpolated pose prompt. -/
def generatePoseVariationRequest (apiKey : Option String)
    (tryOnImageUrl poseInstruction : String) : Except OpError OutboundRequest :=
  if jsTruthy apiKey then
    match dataUrlToPart tryOnImageUrl with
    | .ok p => .ok ⟨modelName, [p, .text (posePrompt poseInstruction)], ["IMAGE", "TEXT"]⟩
    | .error e => .error (.parse e)
  else .error .config

/-- Observer: a candidate none of whose parts carries inline image data. -/
def candidateNoImageB (c : Candidate) : Bool :=
  match c.content with
  | some ct =>
    match ct.parts with
    | some ps => ps.all fun p => p.inlineData.isNone
    | none => true
  | none => true

/-- Observer: the optional chain `response.candidates?.[0]?.finishReason`. -/
def firstFinishReason (r : GenerateContentResponse) : Option String :=
  match (r.candidates.getD []).head? with
  | some c0 => c0.finishReason
  | none => none

/-- Sample part with no inline data. -/
def pText : Part := ⟨none⟩

/-- Sample image part: media type image/png, payload QUFB. -/
def pImg : Part := ⟨some ⟨some "image/png", some "QUFB"⟩⟩

/-- Sample later image part that must be ignored by the short-circuit. -/
def pLater : Part := ⟨some ⟨some "image/jpeg", some "ZZZZ"⟩⟩

/-- Sample candidate with parts but no image part. -/
def cNoImg : Candidate := ⟨some ⟨some [pText]⟩, none⟩

/-- Sample candidate whose second part is the first image part. -/
def cImg : Candidate := ⟨some ⟨some [pText, pImg, pLater]⟩, some "STOP"⟩

/-- Sample trailing candidate that must be ignored by the short-circuit. -/
def cLater : Candidate := ⟨some ⟨some [pLater]⟩, none⟩

/-- Sample response whose first image part sits after a non-image candidate and
a non-image part. -/
def rGood : GenerateContentResponse :=
  ⟨none, some [cNoImg, cImg, cLater], none⟩

/-- Sample blocked response that also carries a valid image candidate. -/
def rBlockedSample : GenerateContentResponse :=
  ⟨some ⟨some "SAFETY", some "blocked by safety"⟩, some [cImg], none⟩

/-- Sample response whose only image part carries empty media type and payload. -/
def rEmptyMime : GenerateContentResponse :=
  ⟨none, some [⟨some ⟨some [⟨some ⟨some "", some ""⟩⟩]⟩, none⟩], none⟩

/-- Sample imageless response finished with "SAFETY". -/
def rSafety : GenerateContentResponse := ⟨none, some [⟨none, some "SAFETY"⟩], none⟩

/-- Sample imageless response finished with "STOP" and padded text. -/
def rText : GenerateContentResponse := ⟨none, some [⟨none, some "STOP"⟩], some " hello "⟩

/-- Sample imageless response finished with "STOP" and no text. -/
def rStop : GenerateContentResponse := ⟨none, some [⟨none, some "STOP"⟩], none⟩

/-- Sample imageless response whose finish reason is the empty string. -/
def rEmptyFinish : GenerateContentResponse := ⟨none, some [⟨none, some ""⟩], none⟩

/-- Sample imageless "STOP" response whose text needs trimming. -/
def rPadText : GenerateContentResponse := ⟨none, some [⟨none, some "STOP"⟩], some "  hi  "⟩

/-- The concrete pose-variation request for the instruction "top-down view". -/
def reqTD : OutboundRequest :=
  ⟨modelName, [.image ⟨"image/png", "AA"⟩, .text (posePrompt "top-down view")],
    ["IMAGE", "TEXT"]⟩


/-- The JS split never returns an empty list. -/
theorem jsSplitComma_ne_nil (l : List Char) : jsSplitComma l ≠ [] := by
  induction l with
  | nil => simp [jsSplitComma]
  | cons c cs ih =>
    unfold jsSplitComma
    by_cases hc : c = ','
    · simp [hc]
    · simp only [if_neg hc]
      cases jsSplitComma cs <;> simp

/-- Splitting a comma-free list yields that list alone. -/
theorem jsSplitComma_no_comma (l : List Char) (h : (',' : Char) ∉ l) :
    jsSplitComma l = [l] := by
  induction l with
  | nil => rfl
  | cons c cs ih =>
    simp only [List.mem_cons, not_or] at h
    unfold jsSplitComma
    rw [if_neg fun hh => h.1 hh.symm, ih h.2]

/-- Splitting around the first comma: the comma-free piece becomes the first
segment. -/
theorem jsSplitComma_append (a b : List Char) (h : (',' : Char) ∉ a) :
    jsSplitComma (a ++ ',' :: b) = a :: jsSplitComma b := by
  induction a with
  | nil => simp [jsSplitComma]
  | cons c cs ih =>
    simp only [List.mem_cons, not_or] at h
    simp only [List.cons_append]
    conv_lhs => unfold jsSplitComma
    rw [if_neg fun hh => h.1 hh.symm, ih h.2]

/-- Any list with a comma decomposes as its comma-free prefix, the first comma,
and the rest. -/
theorem exists_comma_split (l : List Char) (h : (',' : Char) ∈ l) :
    ∃ t, l = l.takeWhile (fun c => c != ',') ++ ',' :: t := by
  induction l with
  | nil => cases h
  | cons c cs ih =>
    by_cases hc : c = ','
    · subst hc
      exact ⟨cs, by simp [List.takeWhile_cons]⟩
    · have hcs : (',' : Char) ∈ cs := by
        rcases List.mem_cons.mp h with h1 | h1
        · exact absurd h1.symm hc
        · exact h1
      obtain ⟨t, ht⟩ := ih hcs
      refine ⟨t, ?_⟩
      conv_lhs => rw [ht]
      simp [List.takeWhile_cons, hc]

/-- The comma-free prefix of a list contains no comma. -/
theorem comma_not_mem_takeWhile (l : List Char) :
    (',' : Char) ∉ l.takeWhile (fun c => c != ',') := by
  intro hmem
  have := List.mem_takeWhile_imp hmem
  simp at this

/-- The lazy capture consumes exactly a semicolon-free, terminator-free block
up to the next `;`. -/
theorem mimeCapture_exact (m rest : List Char) (h1 : (';' : Char) ∉ m)
    (h2 : ∀ c ∈ m, jsLineTerminator c = false) :
    mimeCapture (m ++ ';' :: rest) = some m := by
  induction m with
  | nil => simp [mimeCapture]
  | cons c cs ih =>
    simp only [List.mem_cons, not_or] at h1
    simp only [List.cons_append]
    conv_lhs => unfold mimeCapture
    rw [if_neg fun hh => h1.1 hh.symm]
    rw [h2 c (List.mem_cons_self c cs)]
    simp only [Bool.false_eq_true, if_false]
    rw [ih h1.2 fun x hx => h2 x (List.mem_cons_of_mem c hx)]

/-- The regex scan skips a colon-free prefix unchanged. -/
theorem mimeRegexMatch_skip (pre l : List Char) (h : (':' : Char) ∉ pre) :
    mimeRegexMatch (pre ++ l) = mimeRegexMatch l := by
  induction pre with
  | nil => rfl
  | cons c cs ih =>
    simp only [List.mem_cons, not_or] at h
    simp only [List.cons_append]
    conv_lhs => unfold mimeRegexMatch
    rw [if_neg fun hh => h.1 hh.symm, ih h.2]

/-- With no truthy block reason `handleApiResponse` proceeds past the guard. -/
theorem handleApiResponse_eq_noBlock (r : GenerateContentResponse)
    (hb : jsTruthy (blockReasonOf r) = false) :
    handleApiResponse r = handleNoBlock r := by
  unfold handleApiResponse
  unfold blockReasonOf at hb
  cases hpf : r.promptFeedback with
  | none => rfl
  | some pf =>
    rw [hpf] at hb
    simp [hb]

/-- `find?` misses a list of parts that all lack inline data. -/
theorem find_inline_none (ps : List Part) (h : ∀ p ∈ ps, p.inlineData = none) :
    ps.find? (fun p => p.inlineData.isSome) = none := by
  induction ps with
  | nil => rfl
  | cons q qs ih =>
    rw [List.find?_cons]
    rw [h q (List.mem_cons_self q qs)]
    exact ih fun x hx => h x (List.mem_cons_of_mem q hx)

/-- `find?` returns the first part carrying inline data. -/
theorem find_inline_first (ps1 : List Part) (p : Part) (ps2 : List Part)
    (h1 : ∀ q ∈ ps1, q.inlineData = none) (h2 : p.inlineData.isSome = true) :
    (ps1 ++ p :: ps2).find? (fun q => q.inlineData.isSome) = some p := by
  induction ps1 with
  | nil =>
    simp only [List.nil_append, List.find?_cons]
    rw [h2]
  | cons q qs ih =>
    simp only [List.cons_append, List.find?_cons]
    rw [h1 q (List.mem_cons_self q qs)]
    exact ih fun x hx => h1 x (List.mem_cons_of_mem q hx)

/-- A candidate that `candidateNoImageB` clears contributes no inline data. -/
theorem candidateImage_of_noImageB (c : Candidate) (h : candidateNoImageB c = true) :
    candidateImage c = none := by
  cases hct : c.content with
  | none => simp [candidateImage, hct]
  | some ct =>
    cases hps : ct.parts with
    | none => simp [candidateImage, hct, hps]
    | some ps =>
      simp only [candidateNoImageB, hct, hps, List.all_eq_true] at h
      have hf := find_inline_none ps fun p hp => Option.isNone_iff_eq_none.mp (h p hp)
      simp [candidateImage, hct, hps, hf]

/-- The candidate loop skips a block of image-free candidates. -/
theorem firstImage_append_none (cs1 l : List Candidate)
    (h : ∀ c ∈ cs1, candidateNoImageB c = true) :
    firstImage (cs1 ++ l) = firstImage l := by
  induction cs1 with
  | nil => rfl
  | cons c cs ih =>
    simp only [List.cons_append]
    conv_lhs => unfold firstImage
    rw [candidateImage_of_noImageB c (h c (List.mem_cons_self c cs))]
    exact ih fun x hx => h x (List.mem_cons_of_mem c hx)

/-- The text fallback always fails. -/
theorem noImageResult_isError (r : GenerateContentResponse) :
    ∃ e, noImageResult r = .error e := by
  unfold noImageResult
  cases r.text with
  | none => exact ⟨.noImage none, rfl⟩
  | some t =>
    by_cases h : jsTrim t = ""
    · exact ⟨.noImage none, by simp [h]⟩
    · exact ⟨.noImage (some (jsTrim t)), by simp [h]⟩

/-- The post-scan path always fails. -/
theorem afterScan_isError (r : GenerateContentResponse) :
    ∃ e, afterScan r = .error e := by
  cases hh : (r.candidates.getD []).head? with
  | none => simpa [afterScan, hh] using noImageResult_isError r
  | some c0 =>
    cases hf : c0.finishReason with
    | none => simpa [afterScan, hh, hf] using noImageResult_isError r
    | some fr =>
      by_cases h1 : fr = ""
      · simpa [afterScan, hh, hf, h1] using noImageResult_isError r
      · by_cases h2 : fr = "STOP"
        · simpa [afterScan, hh, hf, h1, h2] using noImageResult_isError r
        · exact ⟨.interrupted fr, by simp [afterScan, hh, hf, h1, h2]⟩

/-- With ok results the post-guard body must have found an image part, and the
result is built verbatim from its inline data. -/
theorem handleNoBlock_ok_shape (r : GenerateContentResponse) (s : String)
    (h : handleNoBlock r = .ok s) :
    ∃ d, firstImage (r.candidates.getD []) = some d ∧ s = mkImageRef d := by
  cases hfi : firstImage (r.candidates.getD []) with
  | some d =>
    simp only [handleNoBlock, hfi, Except.ok.injEq] at h
    exact ⟨d, rfl, h.symm⟩
  | none =>
    obtain ⟨e, he⟩ := afterScan_isError r
    simp only [handleNoBlock, hfi, he] at h
    simp at h

/-- C1: for a response with no top-level block reason, decode scans candidates
in order and each candidate's parts in order, and returns the Image Reference
built from the first part carrying inline image data, short-circuiting past
every later part and candidate; with media type m and payload p present, the
result is exactly `data:m;base64,p` with m and p verbatim. -/
theorem c1_decode_first_image (r : GenerateContentResponse)
    (hb : jsTruthy (blockReasonOf r) = false)
    (cs1 : List Candidate) (c : Candidate) (cs2 : List Candidate)
    (hc : r.candidates = some (cs1 ++ c :: cs2))
    (h1 : ∀ c' ∈ cs1, candidateNoImageB c' = true)
    (ct : Content) (hct : c.content = some ct)
    (ps1 : List Part) (p : Part) (ps2 : List Part)
    (hps : ct.parts = some (ps1 ++ p :: ps2))
    (h2 : ∀ q ∈ ps1, q.inlineData = none)
    (d : InlineData) (hd : p.inlineData = some d) :
    handleApiResponse r =
      .ok ("data:" ++ undefStr d.mimeType ++ ";base64," ++ undefStr d.data) := by
  rw [handleApiResponse_eq_noBlock r hb]
  have hfind := find_inline_first ps1 p ps2 h2 (by rw [hd]; rfl)
  have hci : candidateImage c = some d := by
    simp [candidateImage, hct, hps, hfind, hd]
  have hfi : firstImage (cs1 ++ c :: cs2) = some d := by
    rw [firstImage_append_none cs1 (c :: cs2) h1]
    simp [firstImage, hci]
  simp [handleNoBlock, hc, hfi, mkImageRef]

/-- C1 witness: a concrete response whose first image part follows a non-image
candidate and a non-image part decodes to its data URL. -/
theorem c1_witness :
    handleApiResponse rGood = .ok "data:image/png;base64,QUFB" := by
  exact c1_decode_first_image rGood (by decide) [cNoImg] cImg [cLater] rfl
    (by decide) ⟨some [pText, pImg, pLater]⟩ rfl [pText] pImg [pLater] rfl (by decide)
    ⟨some "image/png", some "QUFB"⟩ rfl

/-- C2: a response with a truthy top-level block reason makes decode fail with
Blocked carrying the reason and the (getD-defaulted) message, whatever the
candidates hold; the conclusion does not mention the candidates at all. -/
theorem c2_blocked (r : GenerateContentResponse) (pf : PromptFeedback) (reason : String)
    (hpf : r.promptFeedback = some pf) (hbr : pf.blockReason = some reason)
    (hne : reason ≠ "") :
    handleApiResponse r = .error (.blocked reason (pf.blockReasonMessage.getD "")) := by
  simp [handleApiResponse, hpf, jsTruthy, hbr, hne]

/-- C2 witness: a blocked response fails with Blocked even though it carries a
candidate with a valid image part. -/
theorem c2_witness :
    handleApiResponse rBlockedSample = .error (.blocked "SAFETY" "blocked by safety") := by
  exact c2_blocked rBlockedSample ⟨some "SAFETY", some "blocked by safety"⟩ "SAFETY"
    rfl rfl (by decide)

/-- C4 (amended): decode performs no validation of the selected image part's
fields; every ok result is built verbatim (via `undefStr`) from the first
image-bearing part's inline data, empty or missing as they may be. -/
theorem c4_ok_from_first_image (r : GenerateContentResponse) (s : String)
    (h : handleApiResponse r = .ok s) :
    ∃ d, firstImage (r.candidates.getD []) = some d ∧ s = mkImageRef d := by
  cases hpf : r.promptFeedback with
  | none =>
    simp only [handleApiResponse, hpf] at h
    exact handleNoBlock_ok_shape r s h
  | some pf =>
    cases hb : jsTruthy pf.blockReason with
    | true =>
      simp [handleApiResponse, hpf, hb] at h
    | false =>
      simp [handleApiResponse, hpf, hb] at h
      exact handleNoBlock_ok_shape r s h

/-- C4 witness: the concrete ok result of `rGood` comes from its first image
part and is its verbatim data URL. -/
theorem c4_witness :
    ∃ d, firstImage (rGood.candidates.getD []) = some d
      ∧ "data:image/png;base64,QUFB" = mkImageRef d := by
  exact c4_ok_from_first_image rGood "data:image/png;base64,QUFB" rfl

/-- C4 counterexample: a part whose inline data has empty media type and empty
payload is still returned, so decode can return an Image Reference with empty
components, contrary to the claimed invariant. -/
theorem c4_counterexample :
    handleApiResponse rEmptyMime = .ok "data:;base64," := rfl

/-- The post-scan path phrased through the `firstFinishReason` observer. -/
theorem afterScan_eq (r : GenerateContentResponse) :
    afterScan r = match firstFinishReason r with
      | some fr =>
        if fr = "" then noImageResult r
        else if fr = "STOP" then noImageResult r
        else .error (.interrupted fr)
      | none => noImageResult r := by
  unfold afterScan firstFinishReason
  cases (r.candidates.getD []).head? with
  | none => rfl
  | some c0 => rfl

/-- C3 (amended): with no block reason and no image part, a present, non-empty
finish reason other than "STOP" yields Interrupted carrying it; with the finish
reason absent, empty, or "STOP", text whose trim is non-empty yields NoImage
embedding the trimmed text, and absent or whitespace-only text yields the
generic NoImage. -/
theorem c3_no_image_outcomes (r : GenerateContentResponse)
    (hb : jsTruthy (blockReasonOf r) = false)
    (hni : firstImage (r.candidates.getD []) = none) :
    (∀ fr, firstFinishReason r = some fr → fr ≠ "" → fr ≠ "STOP" →
        handleApiResponse r = .error (.interrupted fr))
    ∧ (∀ t, (firstFinishReason r = none ∨ firstFinishReason r = some ""
          ∨ firstFinishReason r = some "STOP") →
        r.text = some t → jsTrim t ≠ "" →
        handleApiResponse r = .error (.noImage (some (jsTrim t))))
    ∧ ((firstFinishReason r = none ∨ firstFinishReason r = some ""
          ∨ firstFinishReason r = some "STOP") →
        (r.text = none ∨ ∃ t, r.text = some t ∧ jsTrim t = "") →
        handleApiResponse r = .error (.noImage none)) := by
  have hA : handleApiResponse r = afterScan r := by
    rw [handleApiResponse_eq_noBlock r hb]
    simp [handleNoBlock, hni]
  refine ⟨?_, ?_, ?_⟩
  · intro fr hfr h1 h2
    rw [hA, afterScan_eq, hfr]
    simp [h1, h2]
  · intro t hfall ht htr
    have hnir : noImageResult r = .error (.noImage (some (jsTrim t))) := by
      simp [noImageResult, ht, htr]
    rw [hA, afterScan_eq]
    rcases hfall with h | h | h <;> rw [h] <;> simp [hnir]
  · intro hfall htext
    have hnir : noImageResult r = .error (.noImage none) := by
      rcases htext with h | ⟨t, ht, htr⟩
      · simp [noImageResult, h]
      · simp [noImageResult, ht, htr]
    rw [hA, afterScan_eq]
    rcases hfall with h | h | h <;> rw [h] <;> simp [hnir]

/-- C3 counterexample: a present-but-empty finish reason (which is not "STOP")
falls through to the generic NoImage error instead of Interrupted, and a padded
text is embedded trimmed, not verbatim. -/
theorem c3_counterexample :
    (handleApiResponse rEmptyFinish = .error (.noImage none)
      ∧ handleApiResponse rEmptyFinish ≠ .error (.interrupted ""))
    ∧ (handleApiResponse rPadText = .error (.noImage (some "hi"))
      ∧ handleApiResponse rPadText ≠ .error (.noImage (some "  hi  "))) := by
  refine ⟨⟨rfl, fun h => ?_⟩, rfl, fun h => ?_⟩
  · rw [show handleApiResponse rEmptyFinish = .error (.noImage none) from rfl] at h
    simp at h
  · rw [show handleApiResponse rPadText = .error (.noImage (some "hi")) from rfl] at h
    simp at h

/-- C3 witness: the three amended outcomes at concrete responses. -/
theorem c3_witness :
    handleApiResponse rSafety = .error (.interrupted "SAFETY")
    ∧ handleApiResponse rText = .error (.noImage (some "hello"))
    ∧ handleApiResponse rStop = .error (.noImage none) := by
  refine ⟨?_, ?_, ?_⟩
  · exact (c3_no_image_outcomes rSafety (by decide) rfl).1 "SAFETY" rfl
      (by decide) (by decide)
  · exact (c3_no_image_outcomes rText (by decide) rfl).2.1 " hello "
      (Or.inr (Or.inr rfl)) rfl (by decide)
  · exact (c3_no_image_outcomes rStop (by decide) rfl).2.2
      (Or.inr (Or.inr rfl)) (Or.inl rfl)

/-- C5: parsing an Image Reference fails exactly when the string has no comma
separator or when the regex locates no non-empty media type in the segment
before the first comma; and the documented example parses as specified. -/
theorem c5_formatError_iff :
    (∀ s : String, isErr (dataUrlToParts s) = true ↔
        ((',' : Char) ∉ s.data
          ∨ mimeLocated (s.data.takeWhile (fun c => c != ',')) = none))
    ∧ dataUrlToParts "data:image/png;base64,AAAA" = .ok ⟨"image/png", "AAAA"⟩ := by
  refine ⟨fun s => ?_, rfl⟩
  by_cases hc : (',' : Char) ∈ s.data
  · obtain ⟨t, ht⟩ := exists_comma_split s.data hc
    have hsplit : jsSplitComma s.data
        = s.data.takeWhile (fun c => c != ',') :: jsSplitComma t := by
      conv_lhs => rw [ht]
      exact jsSplitComma_append _ t (comma_not_mem_takeWhile s.data)
    cases hts : jsSplitComma t with
    | nil => exact absurd hts (jsSplitComma_ne_nil t)
    | cons b rest =>
      have hred : dataUrlToParts s
          = match mimeRegexMatch (s.data.takeWhile (fun c => c != ',')) with
            | some m => if m = [] then .error .noMimeType else .ok ⟨⟨m⟩, ⟨b⟩⟩
            | none => .error .noMimeType := by
        unfold dataUrlToParts dataUrlToPartsL
        rw [hsplit, hts]
      rw [hred]
      cases hm : mimeRegexMatch (s.data.takeWhile (fun c => c != ',')) with
      | none => simp [isErr, mimeLocated, hm, hc]
      | some m =>
        by_cases hme : m = []
        · simp [isErr, mimeLocated, hm, hme, hc]
        · simp [isErr, mimeLocated, hm, hme, hc]
  · have hsplit := jsSplitComma_no_comma s.data hc
    simp [dataUrlToParts, dataUrlToPartsL, hsplit, isErr, hc]

/-- C9 (amended): parsing is laxer than the documented grammar: any string of
shape pre ++ ":" ++ m ++ ";" ++ junk ++ "," ++ payload (pre colon- and
comma-free, m non-empty and free of ";", "," and line terminators, junk and
payload comma-free) parses with media type m and payload taken verbatim — no
"data:" prefix and no ";base64" marker is required. -/
theorem c9_lax_grammar (pre m junk payload : List Char)
    (hpc : (':' : Char) ∉ pre) (hpm : (',' : Char) ∉ pre)
    (hm0 : m ≠ []) (hms : (';' : Char) ∉ m) (hmc : (',' : Char) ∉ m)
    (hmt : ∀ c ∈ m, jsLineTerminator c = false)
    (hj : (',' : Char) ∉ junk) (hp : (',' : Char) ∉ payload) :
    dataUrlToPartsL ((pre ++ ':' :: (m ++ ';' :: junk)) ++ ',' :: payload)
      = .ok ⟨⟨m⟩, ⟨payload⟩⟩ := by
  have hA : (',' : Char) ∉ pre ++ ':' :: (m ++ ';' :: junk) := by
    simp only [List.mem_append, List.mem_cons, not_or]
    exact ⟨hpm, by decide, hmc, by decide, hj⟩
  have hsplit : jsSplitComma ((pre ++ ':' :: (m ++ ';' :: junk)) ++ ',' :: payload)
      = (pre ++ ':' :: (m ++ ';' :: junk)) :: [payload] := by
    rw [jsSplitComma_append _ _ hA, jsSplitComma_no_comma payload hp]
  have hmm : mimeRegexMatch (pre ++ ':' :: (m ++ ';' :: junk)) = some m := by
    rw [mimeRegexMatch_skip pre _ hpc]
    conv_lhs => unfold mimeRegexMatch
    rw [if_pos rfl, mimeCapture_exact m junk hms hmt]
  unfold dataUrlToPartsL
  rw [hsplit]
  simp [hmm, hm0]

/-- C9 counterexample: the header of "a:\nb;,P" contains a ":" followed, after
at least one character, by a ";", and the string contains a comma, yet parsing
fails, because the regex dot cannot cross the line terminator. -/
theorem c9_counterexample :
    dataUrlToParts "a:\nb;,P" = .error .noMimeType
    ∧ "a:\nb;,P".data = ['a', ':', '\n', 'b', ';', ',', 'P'] :=
  ⟨rfl, rfl⟩

/-- C9 witness: "x:a;junk,PAYLOAD" parses with media type "a" and payload
"PAYLOAD" although it has neither the "data:" prefix nor a base64 marker. -/
theorem c9_witness :
    dataUrlToParts "x:a;junk,PAYLOAD" = .ok ⟨"a", "PAYLOAD"⟩ := by
  exact c9_lax_grammar "x".data "a".data "junk".data "PAYLOAD".data (by decide)
    (by decide) (by decide) (by decide) (by decide) (by decide) (by decide) (by decide)

/-- C10: when the input has a second comma, the parsed payload is exactly the
segment strictly between the first and second commas; everything from the
second comma on is discarded. -/
theorem c10_payload_between_commas (h t u : List Char) (md : MimeData)
    (hh : (',' : Char) ∉ h) (ht : (',' : Char) ∉ t)
    (hok : dataUrlToPartsL (h ++ ',' :: (t ++ ',' :: u)) = .ok md) :
    md.data = ⟨t⟩ := by
  have hsplit : jsSplitComma (h ++ ',' :: (t ++ ',' :: u))
      = h :: t :: jsSplitComma u := by
    rw [jsSplitComma_append h _ hh, jsSplitComma_append t u ht]
  unfold dataUrlToPartsL at hok
  rw [hsplit] at hok
  cases hm : mimeRegexMatch h with
  | none => simp [hm] at hok
  | some m =>
    by_cases hme : m = []
    · simp [hm, hme] at hok
    · simp [hm, hme] at hok
      rw [← hok]

/-- C10 witness: the documented example loses ",BB". -/
theorem c10_witness :
    dataUrlToParts "data:image/png;base64,AA,BB" = .ok ⟨"image/png", "AA"⟩
    ∧ (MimeData.mk "image/png" "AA").data = ⟨"AA".data⟩ := by
  refine ⟨rfl, ?_⟩
  exact c10_payload_between_commas "data:image/png;base64".data "AA".data "BB".data
    ⟨"image/png", "AA"⟩ (by decide) (by decide) rfl

/-- C6: with no truthy API key, all three operations fail with the
configuration error before any request is formed (and hence before any network
call), whatever the other inputs are — even unparsable ones. -/
theorem c6_config_fail_fast (apiKey : Option String) (u a b c d : String)
    (h : jsTruthy apiKey = false) :
    generateModelImageRequest apiKey u = .error .config
    ∧ generateVirtualTryOnImageRequest apiKey a b = .error .config
    ∧ generatePoseVariationRequest apiKey c d = .error .config := by
  refine ⟨?_, ?_, ?_⟩ <;>
    simp [generateModelImageRequest, generateVirtualTryOnImageRequest,
      generatePoseVariationRequest, h]

/-- C6 witness: with the key absent, the three operations fail with the
configuration error at concrete inputs. -/
theorem c6_witness :
    generateModelImageRequest none "x" = .error .config
    ∧ generateVirtualTryOnImageRequest none "x" "y" = .error .config
    ∧ generatePoseVariationRequest none "x" "top-down view" = .error .config :=
  c6_config_fail_fast none "x" "x" "y" "x" "top-down view" rfl

/-- C7: every pose-variation request that is actually built carries a text part
equal to the fixed template with the caller's instruction interpolated
directly, so the instruction occurs verbatim (as an infix) in the outbound
prompt text. -/
theorem c7_pose_verbatim (apiKey : Option String) (url s : String)
    (req : OutboundRequest)
    (h : generatePoseVariationRequest apiKey url s = .ok req) :
    ReqPart.text (posePrompt s) ∈ req.parts ∧ s.data <:+: (posePrompt s).data := by
  constructor
  · cases hk : jsTruthy apiKey with
    | false => simp [generatePoseVariationRequest, hk] at h
    | true =>
      cases hd : dataUrlToPart url with
      | error e => simp [generatePoseVariationRequest, hk, hd] at h
      | ok p =>
        simp only [generatePoseVariationRequest, hk, if_true, hd,
          Except.ok.injEq] at h
        rw [← h]
        simp
  · refine ⟨posePromptPre.data, posePromptPost.data, ?_⟩
    rw [posePrompt, String.data_append, String.data_append]

/-- C7 witness: the instruction "top-down view" appears verbatim in the
outbound prompt of the concrete request. -/
theorem c7_witness :
    ReqPart.text (posePrompt "top-down view") ∈ reqTD.parts
    ∧ ("top-down view").data <:+: (posePrompt "top-down view").data := by
  exact c7_pose_verbatim (some "k") "data:image/png;base64,AA" "top-down view"
    reqTD rfl

/-- The two transcriptions of the per-candidate search agree. -/
theorem candidateImageEnv_eq (c : Candidate) : candidateImageEnv c = candidateImage c := rfl

/-- The two transcriptions of the candidate loop agree. -/
theorem firstImageEnv_eq (cs : List Candidate) : firstImageEnv cs = firstImage cs := by
  induction cs with
  | nil => rfl
  | cons c cs ih =>
    unfold firstImageEnv firstImage
    rw [candidateImageEnv_eq c, ih]

/-- The two transcriptions of the text fallback agree. -/
theorem noImageResultEnv_eq (r : GenerateContentResponse) :
    noImageResultEnv r = noImageResult r := rfl

/-- The two transcriptions of the finish-reason check agree. -/
theorem afterScanEnv_eq (r : GenerateContentResponse) :
    afterScanEnv r = afterScan r := rfl

/-- The two transcriptions of the post-guard body agree. -/
theorem handleNoBlockEnv_eq (r : GenerateContentResponse) :
    handleNoBlockEnv r = handleNoBlock r := by
  unfold handleNoBlockEnv handleNoBlock
  rw [firstImageEnv_eq, afterScanEnv_eq]

/-- C8: the two near-duplicate wrapper implementations compute the same
functions on their shared pure logic: response decoding and image-reference
parsing agree pointwise between the hard-coded-credential file and the
environment-credential file. -/
theorem c8_variants_agree :
    (∀ r, handleApiResponseEnv r = handleApiResponse r)
    ∧ ∀ s, dataUrlToPartsEnv s = dataUrlToParts s := by
  constructor
  · intro r
    unfold handleApiResponseEnv handleApiResponse
    rw [handleNoBlockEnv_eq]
  · intro s
    rfl

end Gemini
